import Mathlib

/-!
# ktx2_wrapper: the sparse-to-dense parameter mergers

A shallow embedding of `crates/ktx2_wrapper/src/ktx_wrappers.cpp`:
`intoCPPBasisUastcParams` and `intoCPPBasisEtc1sParams`, which build a dense
`ktxBasisParams` block from a common sparse set and an encoder-specific sparse
set, and the three invokers that hand a block to the external encoder.

Modelling conventions.

* A nullable field of a sparse set (`if (p) ... *p`) is an `Option`: `none` is
  the null pointer, `some v` a pointer to `v`.  The test `if (p)` is
  `p.isSome`, the read `*p` is `deref p`, which faults on `none`.
* The mergers run in `Except Fault`: `.ok b` is a returned block, `.error f`
  is an execution that reads through a null pointer or past the end of a
  string, which C++ leaves undefined.
* `ktx_uint32_t` values are `Nat`, `float` values are their IEEE-754 binary32
  bit pattern as a `Nat` (the mergers only copy them), `char` is `Char`, one
  list element per `char` of a string, so that `length()` is `List.length`.
* The types declared in `ktx.h` and `cxxgen1.h` are not part of the wrapper's
  sources.  The records below list the fields that the two mergers name, with
  the types of the dense fields they are assigned to.  `sizeof(ktxBasisParams)`
  is a parameter of both mergers.
* The external encode entry points are parameters of the invokers: functions
  from the texture handle and the block to a result code.  An invoker yields
  the code it returns together with the list of calls it made.
-/

namespace Ktx2Wrapper

/-- The two ways in which an execution of a merger can leave defined behaviour. -/
inductive Fault where
  | nullDeref
  | outOfBounds
  deriving DecidableEq, Repr

/-- The newtype wrapper around the UASTC flag bitmask; the merger reads its
`value` member. -/
structure KtxPackUastcFlags where
  value : Nat
  deriving DecidableEq, Repr

/-- The common sparse set: `uastc` is always present, the rest is nullable. -/
structure KtxBasisParams where
  uastc : Bool
  verbose : Option Bool
  no_sse : Option Bool
  thread_count : Option Nat
  deriving DecidableEq, Repr

/-- The UASTC-specific sparse set. -/
structure KtxBasisUASTCParams where
  uastc_flags : Option KtxPackUastcFlags
  uastc_rdo : Option Bool
  uastc_rdo_quality_scalar : Option Nat
  uastc_rdo_dict_size : Option Nat
  uastc_rdo_max_smooth_block_error_scale : Option Nat
  uastc_rdo_max_smooth_block_std_dev : Option Nat
  uastc_rdo_dont_favor_simpler_modes : Option Bool
  uastc_rdo_no_multithreading : Option Bool
  input_swizzle : Option (List Char)
  pre_swizzle : Option Bool
  deriving DecidableEq, Repr

/-- The ETC1S-specific sparse set. -/
structure KtxBasisETC1SParams where
  compression_level : Option Nat
  quality_level : Option Nat
  max_endpoints : Option Nat
  endpoint_rdo_threshold : Option Nat
  max_selectors : Option Nat
  selector_rdo_threshold : Option Nat
  input_swizzle : Option (List Char)
  normal_map : Option Bool
  separate_rgt_to_rgba : Option Bool
  pre_swizzle : Option Bool
  no_endpoint_rdo : Option Bool
  no_selector_rdo : Option Bool
  deriving DecidableEq, Repr

/-- The dense block handed to the encoder.  `inputSwizzle` is the array
`char inputSwizzle[4]`. -/
structure ktxBasisParams where
  structSize : Nat
  uastc : Bool
  verbose : Bool
  noSSE : Bool
  threadCount : Nat
  compressionLevel : Nat
  qualityLevel : Nat
  maxEndpoints : Nat
  endpointRDOThreshold : Nat
  maxSelectors : Nat
  selectorRDOThreshold : Nat
  inputSwizzle : Fin 4 → Char
  normalMap : Bool
  separateRGToRGB_A : Bool
  preSwizzle : Bool
  noEndpointRDO : Bool
  noSelectorRDO : Bool
  uastcFlags : Nat
  uastcRDO : Bool
  uastcRDOQualityScalar : Nat
  uastcRDODictSize : Nat
  uastcRDOMaxSmoothBlockErrorScale : Nat
  uastcRDOMaxSmoothBlockStdDev : Nat
  uastcRDODontFavorSimplerModes : Bool
  uastcRDONoMultithreading : Bool

/-- The block `{ .uastc = u }`: the designated initialiser sets `uastc` and
value-initialises every other member (zero, `false`, NUL characters). -/
def designatedInit (u : Bool) : ktxBasisParams :=
  { structSize := 0, uastc := u, verbose := false, noSSE := false, threadCount := 0,
    compressionLevel := 0, qualityLevel := 0, maxEndpoints := 0, endpointRDOThreshold := 0,
    maxSelectors := 0, selectorRDOThreshold := 0, inputSwizzle := fun _ => Char.ofNat 0,
    normalMap := false, separateRGToRGB_A := false, preSwizzle := false,
    noEndpointRDO := false, noSelectorRDO := false, uastcFlags := 0, uastcRDO := false,
    uastcRDOQualityScalar := 0, uastcRDODictSize := 0, uastcRDOMaxSmoothBlockErrorScale := 0,
    uastcRDOMaxSmoothBlockStdDev := 0, uastcRDODontFavorSimplerModes := false,
    uastcRDONoMultithreading := false }

/-- The read `*p` of a nullable field. -/
def deref {α : Type} (p : Option α) : Except Fault α :=
  match p with
  | some v => .ok v
  | none => .error Fault.nullDeref

/-- The read `s.data()[i]` of the `i`-th `char` of a string. -/
def charAt (s : List Char) (i : Nat) : Except Fault Char :=
  match s.get? i with
  | some ch => .ok ch
  | none => .error Fault.outOfBounds

/-- The assignment `a[i] = ch` on a four-element array. -/
def setAt (a : Fin 4 → Char) (i : Fin 4) (ch : Char) : Fin 4 → Char :=
  fun j => if j = i then ch else a j

/-- The merger `intoCPPBasisUastcParams`, statement by statement.  Each
`let output ← (if ...)` is one `if (...) { output.f = ...; }` of the source;
`longEnough` is the short-circuit test `p && p->length() > 4`.  The last
statement is `output.preSwizzle = uastcParams->pre_swizzle;`, which assigns the
pointer, not the value it points to: the conversion of a pointer to
`ktx_bool_t` is `true` exactly when the pointer is not null. -/
def intoCPPBasisUastcParams (sizeofKtxBasisParams : Nat) (basisParams : KtxBasisParams)
    (uastcParams : KtxBasisUASTCParams) : Except Fault ktxBasisParams := do
  let output : ktxBasisParams := designatedInit basisParams.uastc
  let output : ktxBasisParams := { output with structSize := sizeofKtxBasisParams % 2 ^ 32 }
  let output ← (if basisParams.verbose.isSome then do
      let v ← deref basisParams.verbose
      pure { output with verbose := v }
    else pure output)
  let output ← (if basisParams.no_sse.isSome then do
      let v ← deref basisParams.no_sse
      pure { output with noSSE := v }
    else pure output)
  let output ← (if basisParams.thread_count.isSome then do
      let v ← deref basisParams.thread_count
      pure { output with threadCount := v }
    else pure output)
  let output ← (if uastcParams.uastc_flags.isSome then do
      let w ← deref uastcParams.uastc_flags
      pure { output with uastcFlags := w.value }
    else pure output)
  let output ← (if uastcParams.uastc_rdo.isSome then do
      let v ← deref uastcParams.uastc_rdo
      pure { output with uastcRDO := v }
    else pure output)
  let output ← (if uastcParams.uastc_rdo_quality_scalar.isSome then do
      let v ← deref uastcParams.uastc_rdo_quality_scalar
      pure { output with uastcRDOQualityScalar := v }
    else pure output)
  let output ← (if uastcParams.uastc_rdo_dict_size.isSome then do
      let v ← deref uastcParams.uastc_rdo_dict_size
      pure { output with uastcRDODictSize := v }
    else pure output)
  let output ← (if uastcParams.uastc_rdo_max_smooth_block_error_scale.isSome then do
      let v ← deref uastcParams.uastc_rdo_max_smooth_block_error_scale
      pure { output with uastcRDOMaxSmoothBlockErrorScale := v }
    else pure output)
  let output ← (if uastcParams.uastc_rdo_max_smooth_block_std_dev.isSome then do
      let v ← deref uastcParams.uastc_rdo_max_smooth_block_std_dev
      pure { output with uastcRDOMaxSmoothBlockStdDev := v }
    else pure output)
  let output ← (if uastcParams.uastc_rdo_dont_favor_simpler_modes.isSome then do
      let v ← deref uastcParams.uastc_rdo_dont_favor_simpler_modes
      pure { output with uastcRDODontFavorSimplerModes := v }
    else pure output)
  let output ← (if uastcParams.uastc_rdo_no_multithreading.isSome then do
      let v ← deref uastcParams.uastc_rdo_no_multithreading
      pure { output with uastcRDONoMultithreading := v }
    else pure output)
  let longEnough ← (if uastcParams.input_swizzle.isSome then do
      let s ← deref uastcParams.input_swizzle
      pure (decide (s.length > 4))
    else pure false)
  let output ← (if longEnough then do
      let s ← deref uastcParams.input_swizzle
      let c0 ← charAt s 0
      let output : ktxBasisParams := { output with inputSwizzle := setAt output.inputSwizzle 0 c0 }
      let c1 ← charAt s 1
      let output : ktxBasisParams := { output with inputSwizzle := setAt output.inputSwizzle 1 c1 }
      let c2 ← charAt s 2
      let output : ktxBasisParams := { output with inputSwizzle := setAt output.inputSwizzle 2 c2 }
      let c3 ← charAt s 3
      pure { output with inputSwizzle := setAt output.inputSwizzle 3 c3 }
    else pure output)
  let output ← (if uastcParams.pre_swizzle.isSome then
      pure { output with preSwizzle := uastcParams.pre_swizzle.isSome }
    else pure output)
  return output

/-- The merger `intoCPPBasisEtc1sParams`, statement by statement.  The
statement guarded by `no_endpoint_rdo` reads `*etc1sParams->no_selector_rdo`,
as the source does. -/
def intoCPPBasisEtc1sParams (sizeofKtxBasisParams : Nat) (basisParams : KtxBasisParams)
    (etc1sParams : KtxBasisETC1SParams) : Except Fault ktxBasisParams := do
  let output : ktxBasisParams := designatedInit basisParams.uastc
  let output : ktxBasisParams := { output with structSize := sizeofKtxBasisParams % 2 ^ 32 }
  let output ← (if basisParams.verbose.isSome then do
      let v ← deref basisParams.verbose
      pure { output with verbose := v }
    else pure output)
  let output ← (if basisParams.no_sse.isSome then do
      let v ← deref basisParams.no_sse
      pure { output with noSSE := v }
    else pure output)
  let output ← (if basisParams.thread_count.isSome then do
      let v ← deref basisParams.thread_count
      pure { output with threadCount := v }
    else pure output)
  let output ← (if etc1sParams.compression_level.isSome then do
      let v ← deref etc1sParams.compression_level
      pure { output with compressionLevel := v }
    else pure output)
  let output ← (if etc1sParams.quality_level.isSome then do
      let v ← deref etc1sParams.quality_level
      pure { output with qualityLevel := v }
    else pure output)
  let output ← (if etc1sParams.max_endpoints.isSome then do
      let v ← deref etc1sParams.max_endpoints
      pure { output with maxEndpoints := v }
    else pure output)
  let output ← (if etc1sParams.endpoint_rdo_threshold.isSome then do
      let v ← deref etc1sParams.endpoint_rdo_threshold
      pure { output with endpointRDOThreshold := v }
    else pure output)
  let output ← (if etc1sParams.max_selectors.isSome then do
      let v ← deref etc1sParams.max_selectors
      pure { output with maxSelectors := v }
    else pure output)
  let output ← (if etc1sParams.selector_rdo_threshold.isSome then do
      let v ← deref etc1sParams.selector_rdo_threshold
      pure { output with selectorRDOThreshold := v }
    else pure output)
  let longEnough ← (if etc1sParams.input_swizzle.isSome then do
      let s ← deref etc1sParams.input_swizzle
      pure (decide (s.length > 4))
    else pure false)
  let output ← (if longEnough then do
      let s ← deref etc1sParams.input_swizzle
      let c0 ← charAt s 0
      let output : ktxBasisParams := { output with inputSwizzle := setAt output.inputSwizzle 0 c0 }
      let c1 ← charAt s 1
      let output : ktxBasisParams := { output with inputSwizzle := setAt output.inputSwizzle 1 c1 }
      let c2 ← charAt s 2
      let output : ktxBasisParams := { output with inputSwizzle := setAt output.inputSwizzle 2 c2 }
      let c3 ← charAt s 3
      pure { output with inputSwizzle := setAt output.inputSwizzle 3 c3 }
    else pure output)
  let output ← (if etc1sParams.normal_map.isSome then do
      let v ← deref etc1sParams.normal_map
      pure { output with normalMap := v }
    else pure output)
  let output ← (if etc1sParams.separate_rgt_to_rgba.isSome then do
      let v ← deref etc1sParams.separate_rgt_to_rgba
      pure { output with separateRGToRGB_A := v }
    else pure output)
  let output ← (if etc1sParams.pre_swizzle.isSome then do
      let v ← deref etc1sParams.pre_swizzle
      pure { output with preSwizzle := v }
    else pure output)
  let output ← (if etc1sParams.no_endpoint_rdo.isSome then do
      let v ← deref etc1sParams.no_selector_rdo
      pure { output with noEndpointRDO := v }
    else pure output)
  let output ← (if etc1sParams.no_selector_rdo.isSome then do
      let v ← deref etc1sParams.no_selector_rdo
      pure { output with noSelectorRDO := v }
    else pure output)
  return output


/-- The four-element array after the guarded copy of a swizzle string: the
first four characters of a string longer than four, the array `a` otherwise. -/
def swizzleOf (p : Option (List Char)) (a : Fin 4 → Char) : Fin 4 → Char :=
  match p with
  | some s =>
    if s.length > 4 then
      setAt (setAt (setAt (setAt a 0 (s.getD 0 (Char.ofNat 0))) 1 (s.getD 1 (Char.ofNat 0)))
        2 (s.getD 2 (Char.ofNat 0))) 3 (s.getD 3 (Char.ofNat 0))
    else a
  | none => a

/-- The value of the test `p && p->length() > 4`. -/
def swizzleGate (p : Option (List Char)) : Bool :=
  match p with
  | some s => decide (s.length > 4)
  | none => false

/-- The block that `intoCPPBasisUastcParams` returns, field by field. -/
def uastcBlock (sizeofKtxBasisParams : Nat) (c : KtxBasisParams) (u : KtxBasisUASTCParams) :
    ktxBasisParams :=
  { structSize := sizeofKtxBasisParams % 2 ^ 32
    uastc := c.uastc
    verbose := c.verbose.getD false
    noSSE := c.no_sse.getD false
    threadCount := c.thread_count.getD 0
    compressionLevel := 0
    qualityLevel := 0
    maxEndpoints := 0
    endpointRDOThreshold := 0
    maxSelectors := 0
    selectorRDOThreshold := 0
    inputSwizzle := swizzleOf u.input_swizzle (fun _ => Char.ofNat 0)
    normalMap := false
    separateRGToRGB_A := false
    preSwizzle := u.pre_swizzle.isSome
    noEndpointRDO := false
    noSelectorRDO := false
    uastcFlags := (u.uastc_flags.map KtxPackUastcFlags.value).getD 0
    uastcRDO := u.uastc_rdo.getD false
    uastcRDOQualityScalar := u.uastc_rdo_quality_scalar.getD 0
    uastcRDODictSize := u.uastc_rdo_dict_size.getD 0
    uastcRDOMaxSmoothBlockErrorScale := u.uastc_rdo_max_smooth_block_error_scale.getD 0
    uastcRDOMaxSmoothBlockStdDev := u.uastc_rdo_max_smooth_block_std_dev.getD 0
    uastcRDODontFavorSimplerModes := u.uastc_rdo_dont_favor_simpler_modes.getD false
    uastcRDONoMultithreading := u.uastc_rdo_no_multithreading.getD false }

/-- The block that `intoCPPBasisEtc1sParams` returns when it returns one,
field by field. -/
def etc1sBlock (sizeofKtxBasisParams : Nat) (c : KtxBasisParams) (e : KtxBasisETC1SParams) :
    ktxBasisParams :=
  { structSize := sizeofKtxBasisParams % 2 ^ 32
    uastc := c.uastc
    verbose := c.verbose.getD false
    noSSE := c.no_sse.getD false
    threadCount := c.thread_count.getD 0
    compressionLevel := e.compression_level.getD 0
    qualityLevel := e.quality_level.getD 0
    maxEndpoints := e.max_endpoints.getD 0
    endpointRDOThreshold := e.endpoint_rdo_threshold.getD 0
    maxSelectors := e.max_selectors.getD 0
    selectorRDOThreshold := e.selector_rdo_threshold.getD 0
    inputSwizzle := swizzleOf e.input_swizzle (fun _ => Char.ofNat 0)
    normalMap := e.normal_map.getD false
    separateRGToRGB_A := e.separate_rgt_to_rgba.getD false
    preSwizzle := e.pre_swizzle.getD false
    noEndpointRDO := if e.no_endpoint_rdo.isSome then e.no_selector_rdo.getD false else false
    noSelectorRDO := e.no_selector_rdo.getD false
    uastcFlags := 0
    uastcRDO := false
    uastcRDOQualityScalar := 0
    uastcRDODictSize := 0
    uastcRDOMaxSmoothBlockErrorScale := 0
    uastcRDOMaxSmoothBlockStdDev := 0
    uastcRDODontFavorSimplerModes := false
    uastcRDONoMultithreading := false }

/-- The inputs on which `intoCPPBasisEtc1sParams` reads through the null
`no_selector_rdo`: `no_endpoint_rdo` present, `no_selector_rdo` absent. -/
def etc1sFaults (e : KtxBasisETC1SParams) : Bool :=
  e.no_endpoint_rdo.isSome && e.no_selector_rdo.isNone

/-- The UASTC-specific set with every optional field absent. -/
def KtxBasisUASTCParams.absent : KtxBasisUASTCParams :=
  { uastc_flags := none, uastc_rdo := none, uastc_rdo_quality_scalar := none,
    uastc_rdo_dict_size := none, uastc_rdo_max_smooth_block_error_scale := none,
    uastc_rdo_max_smooth_block_std_dev := none, uastc_rdo_dont_favor_simpler_modes := none,
    uastc_rdo_no_multithreading := none, input_swizzle := none, pre_swizzle := none }

/-- The ETC1S-specific set with every optional field absent. -/
def KtxBasisETC1SParams.absent : KtxBasisETC1SParams :=
  { compression_level := none, quality_level := none, max_endpoints := none,
    endpoint_rdo_threshold := none, max_selectors := none, selector_rdo_threshold := none,
    input_swizzle := none, normal_map := none, separate_rgt_to_rgba := none,
    pre_swizzle := none, no_endpoint_rdo := none, no_selector_rdo := none }

/-- The common set with the given encoder flag and every optional field absent. -/
def KtxBasisParams.absent (uastc : Bool) : KtxBasisParams :=
  { uastc := uastc, verbose := none, no_sse := none, thread_count := none }

/-- The block `ktxAstcParams` of `ktx.h`, of which the wrapper names one
member: the size stamp `structSize`.  The members it never names are kept
together in `other`. -/
structure ktxAstcParams (Other : Type) where
  structSize : Nat
  other : Other

/-- What an invoker does, as its caller and the library see it: the result
code it returns and the calls it makes to the external encode entry point, in
order, each with the texture handle and the block passed by pointer. -/
structure Invocation (Texture Block Code : Type) where
  result : Code
  calls : List (Texture × Block)

/-- The invoker `ktxTexture2_CompressAstcExWrapped`.  `params` is the
`std::unique_ptr`, `none` when it owns nothing; the external entry point
`ktxTexture2_CompressAstcEx` and `sizeof(ktxAstcParams)` are parameters. -/
def ktxTexture2_CompressAstcExWrapped {Texture Other Code : Type} (sizeofKtxAstcParams : Nat)
    (ktxTexture2_CompressAstcEx : Texture → ktxAstcParams Other → Code) (texture : Texture)
    (params : Option (ktxAstcParams Other)) :
    Except Fault (Invocation Texture (ktxAstcParams Other) Code) := do
  let p ← deref params
  let p : ktxAstcParams Other := { p with structSize := sizeofKtxAstcParams % 2 ^ 32 }
  pure { result := ktxTexture2_CompressAstcEx texture p, calls := [(texture, p)] }

theorem assign_verbose (p : Option Bool) (out : ktxBasisParams) :
    (if p.isSome = true then (do let v ← deref p; pure { out with verbose := v }) else pure out)
      = (pure { out with verbose := p.getD out.verbose } : Except Fault ktxBasisParams) := by
  cases p <;> rfl

theorem assign_noSSE (p : Option Bool) (out : ktxBasisParams) :
    (if p.isSome = true then (do let v ← deref p; pure { out with noSSE := v }) else pure out)
      = (pure { out with noSSE := p.getD out.noSSE } : Except Fault ktxBasisParams) := by
  cases p <;> rfl

theorem assign_threadCount (p : Option Nat) (out : ktxBasisParams) :
    (if p.isSome = true then (do let v ← deref p; pure { out with threadCount := v }) else pure out)
      = (pure { out with threadCount := p.getD out.threadCount } : Except Fault ktxBasisParams) := by
  cases p <;> rfl

theorem assign_uastcRDO (p : Option Bool) (out : ktxBasisParams) :
    (if p.isSome = true then (do let v ← deref p; pure { out with uastcRDO := v }) else pure out)
      = (pure { out with uastcRDO := p.getD out.uastcRDO } : Except Fault ktxBasisParams) := by
  cases p <;> rfl

theorem assign_uastcRDOQualityScalar (p : Option Nat) (out : ktxBasisParams) :
    (if p.isSome = true then (do let v ← deref p; pure { out with uastcRDOQualityScalar := v }) else pure out)
      = (pure { out with uastcRDOQualityScalar := p.getD out.uastcRDOQualityScalar } : Except Fault ktxBasisParams) := by
  cases p <;> rfl

theorem assign_uastcRDODictSize (p : Option Nat) (out : ktxBasisParams) :
    (if p.isSome = true then (do let v ← deref p; pure { out with uastcRDODictSize := v }) else pure out)
      = (pure { out with uastcRDODictSize := p.getD out.uastcRDODictSize } : Except Fault ktxBasisParams) := by
  cases p <;> rfl

theorem assign_uastcRDOMaxSmoothBlockErrorScale (p : Option Nat) (out : ktxBasisParams) :
    (if p.isSome = true then (do let v ← deref p; pure { out with uastcRDOMaxSmoothBlockErrorScale := v }) else pure out)
      = (pure { out with uastcRDOMaxSmoothBlockErrorScale := p.getD out.uastcRDOMaxSmoothBlockErrorScale } : Except Fault ktxBasisParams) := by
  cases p <;> rfl

theorem assign_uastcRDOMaxSmoothBlockStdDev (p : Option Nat) (out : ktxBasisParams) :
    (if p.isSome = true then (do let v ← deref p; pure { out with uastcRDOMaxSmoothBlockStdDev := v }) else pure out)
      = (pure { out with uastcRDOMaxSmoothBlockStdDev := p.getD out.uastcRDOMaxSmoothBlockStdDev } : Except Fault ktxBasisParams) := by
  cases p <;> rfl

theorem assign_uastcRDODontFavorSimplerModes (p : Option Bool) (out : ktxBasisParams) :
    (if p.isSome = true then (do let v ← deref p; pure { out with uastcRDODontFavorSimplerModes := v }) else pure out)
      = (pure { out with uastcRDODontFavorSimplerModes := p.getD out.uastcRDODontFavorSimplerModes } : Except Fault ktxBasisParams) := by
  cases p <;> rfl

theorem assign_uastcRDONoMultithreading (p : Option Bool) (out : ktxBasisParams) :
    (if p.isSome = true then (do let v ← deref p; pure { out with uastcRDONoMultithreading := v }) else pure out)
      = (pure { out with uastcRDONoMultithreading := p.getD out.uastcRDONoMultithreading } : Except Fault ktxBasisParams) := by
  cases p <;> rfl

theorem assign_compressionLevel (p : Option Nat) (out : ktxBasisParams) :
    (if p.isSome = true then (do let v ← deref p; pure { out with compressionLevel := v }) else pure out)
      = (pure { out with compressionLevel := p.getD out.compressionLevel } : Except Fault ktxBasisParams) := by
  cases p <;> rfl

theorem assign_qualityLevel (p : Option Nat) (out : ktxBasisParams) :
    (if p.isSome = true then (do let v ← deref p; pure { out with qualityLevel := v }) else pure out)
      = (pure { out with qualityLevel := p.getD out.qualityLevel } : Except Fault ktxBasisParams) := by
  cases p <;> rfl

theorem assign_maxEndpoints (p : Option Nat) (out : ktxBasisParams) :
    (if p.isSome = true then (do let v ← deref p; pure { out with maxEndpoints := v }) else pure out)
      = (pure { out with maxEndpoints := p.getD out.maxEndpoints } : Except Fault ktxBasisParams) := by
  cases p <;> rfl

theorem assign_endpointRDOThreshold (p : Option Nat) (out : ktxBasisParams) :
    (if p.isSome = true then (do let v ← deref p; pure { out with endpointRDOThreshold := v }) else pure out)
      = (pure { out with endpointRDOThreshold := p.getD out.endpointRDOThreshold } : Except Fault ktxBasisParams) := by
  cases p <;> rfl

theorem assign_maxSelectors (p : Option Nat) (out : ktxBasisParams) :
    (if p.isSome = true then (do let v ← deref p; pure { out with maxSelectors := v }) else pure out)
      = (pure { out with maxSelectors := p.getD out.maxSelectors } : Except Fault ktxBasisParams) := by
  cases p <;> rfl

theorem assign_selectorRDOThreshold (p : Option Nat) (out : ktxBasisParams) :
    (if p.isSome = true then (do let v ← deref p; pure { out with selectorRDOThreshold := v }) else pure out)
      = (pure { out with selectorRDOThreshold := p.getD out.selectorRDOThreshold } : Except Fault ktxBasisParams) := by
  cases p <;> rfl

theorem assign_normalMap (p : Option Bool) (out : ktxBasisParams) :
    (if p.isSome = true then (do let v ← deref p; pure { out with normalMap := v }) else pure out)
      = (pure { out with normalMap := p.getD out.normalMap } : Except Fault ktxBasisParams) := by
  cases p <;> rfl

theorem assign_separateRGToRGB_A (p : Option Bool) (out : ktxBasisParams) :
    (if p.isSome = true then (do let v ← deref p; pure { out with separateRGToRGB_A := v }) else pure out)
      = (pure { out with separateRGToRGB_A := p.getD out.separateRGToRGB_A } : Except Fault ktxBasisParams) := by
  cases p <;> rfl

theorem assign_preSwizzle (p : Option Bool) (out : ktxBasisParams) :
    (if p.isSome = true then (do let v ← deref p; pure { out with preSwizzle := v }) else pure out)
      = (pure { out with preSwizzle := p.getD out.preSwizzle } : Except Fault ktxBasisParams) := by
  cases p <;> rfl

theorem assign_noSelectorRDO (p : Option Bool) (out : ktxBasisParams) :
    (if p.isSome = true then (do let v ← deref p; pure { out with noSelectorRDO := v }) else pure out)
      = (pure { out with noSelectorRDO := p.getD out.noSelectorRDO } : Except Fault ktxBasisParams) := by
  cases p <;> rfl

theorem assign_uastcFlags (p : Option KtxPackUastcFlags) (out : ktxBasisParams) :
    (if p.isSome = true then (do let w ← deref p; pure { out with uastcFlags := w.value }) else pure out)
      = (pure { out with uastcFlags := (p.map KtxPackUastcFlags.value).getD out.uastcFlags } :
          Except Fault ktxBasisParams) := by
  cases p <;> rfl

theorem assign_preSwizzle_ptr (p : Option Bool) (out : ktxBasisParams) :
    (if p.isSome = true then pure { out with preSwizzle := p.isSome } else pure out)
      = (pure { out with preSwizzle := p.isSome || out.preSwizzle } : Except Fault ktxBasisParams) := by
  cases p <;> rfl

theorem swizzle_test (p : Option (List Char)) :
    (if p.isSome = true then (do let s ← deref p; pure (decide (s.length > 4))) else pure false)
      = (pure (swizzleGate p) : Except Fault Bool) := by
  cases p <;> rfl

theorem charAt_of_lt (s : List Char) (i : Nat) (h : i < s.length) :
    charAt s i = .ok (s.getD i (Char.ofNat 0)) := by
  unfold charAt
  rw [List.getD_eq_getElem _ _ h, List.get?_eq_get h]
  rfl

theorem assign_inputSwizzle (p : Option (List Char)) (out : ktxBasisParams) :
    (if swizzleGate p = true then (do
        let s ← deref p
        let c0 ← charAt s 0
        let output : ktxBasisParams := { out with inputSwizzle := setAt out.inputSwizzle 0 c0 }
        let c1 ← charAt s 1
        let output : ktxBasisParams := { output with inputSwizzle := setAt output.inputSwizzle 1 c1 }
        let c2 ← charAt s 2
        let output : ktxBasisParams := { output with inputSwizzle := setAt output.inputSwizzle 2 c2 }
        let c3 ← charAt s 3
        pure { output with inputSwizzle := setAt output.inputSwizzle 3 c3 })
      else pure out)
      = (pure { out with inputSwizzle := swizzleOf p out.inputSwizzle } :
          Except Fault ktxBasisParams) := by
  cases p with
  | none => rfl
  | some s =>
    by_cases h : s.length > 4
    · have h0 := charAt_of_lt s 0 (by omega)
      have h1 := charAt_of_lt s 1 (by omega)
      have h2 := charAt_of_lt s 2 (by omega)
      have h3 := charAt_of_lt s 3 (by omega)
      simp only [swizzleGate, swizzleOf, h, decide_True, if_true, deref, bind, Except.bind,
        h0, h1, h2, h3]
    · simp only [swizzleGate, swizzleOf, h, decide_False, if_false]
      rfl

/-- The UASTC merger returns on every input, and returns `uastcBlock`. -/
theorem intoCPPBasisUastcParams_eq (sz : Nat) (c : KtxBasisParams) (u : KtxBasisUASTCParams) :
    intoCPPBasisUastcParams sz c u = .ok (uastcBlock sz c u) := by
  unfold intoCPPBasisUastcParams
  simp -zeta only [assign_verbose, assign_noSSE, assign_threadCount, assign_uastcFlags,
    assign_uastcRDO, assign_uastcRDOQualityScalar, assign_uastcRDODictSize,
    assign_uastcRDOMaxSmoothBlockErrorScale, assign_uastcRDOMaxSmoothBlockStdDev,
    assign_uastcRDODontFavorSimplerModes, assign_uastcRDONoMultithreading, swizzle_test,
    assign_preSwizzle_ptr, pure_bind, assign_inputSwizzle]
  show Except.ok _ = Except.ok _
  congr 1
  simp only [uastcBlock, designatedInit, Bool.or_false]

/-- The ETC1S merger faults exactly on `etc1sFaults`, and returns `etc1sBlock`
on every other input. -/
theorem intoCPPBasisEtc1sParams_eq (sz : Nat) (c : KtxBasisParams) (e : KtxBasisETC1SParams) :
    intoCPPBasisEtc1sParams sz c e =
      if etc1sFaults e then .error Fault.nullDeref else .ok (etc1sBlock sz c e) := by
  obtain ⟨cl, ql, me, ert, ms, srt, sw, nm, sep, ps, ne, ns⟩ := e
  unfold intoCPPBasisEtc1sParams
  cases ne <;> cases ns <;>
    simp -zeta only [assign_verbose, assign_noSSE, assign_threadCount, assign_compressionLevel,
      assign_qualityLevel, assign_maxEndpoints, assign_endpointRDOThreshold, assign_maxSelectors,
      assign_selectorRDOThreshold, assign_normalMap, assign_separateRGToRGB_A, assign_preSwizzle,
      assign_noSelectorRDO, swizzle_test, pure_bind, assign_inputSwizzle] <;>
    rfl

/-- A block returned by the ETC1S merger is `etc1sBlock`, and the input is not
one of `etc1sFaults`. -/
theorem intoCPPBasisEtc1sParams_ok {sz : Nat} {c : KtxBasisParams} {e : KtxBasisETC1SParams}
    {b : ktxBasisParams} (h : intoCPPBasisEtc1sParams sz c e = .ok b) :
    etc1sFaults e = false ∧ b = etc1sBlock sz c e := by
  rw [intoCPPBasisEtc1sParams_eq] at h
  cases hf : etc1sFaults e
  · rw [hf] at h
    simp only [Bool.false_eq_true, if_false, Except.ok.injEq] at h
    exact ⟨rfl, h.symm⟩
  · rw [hf] at h
    simp only [if_true] at h
    cases h

/-- The ETC1S merger returns `etc1sBlock` on an input outside `etc1sFaults`. -/
theorem intoCPPBasisEtc1sParams_of_not_faults (sz : Nat) (c : KtxBasisParams)
    (e : KtxBasisETC1SParams) (h : etc1sFaults e = false) :
    intoCPPBasisEtc1sParams sz c e = .ok (etc1sBlock sz c e) := by
  rw [intoCPPBasisEtc1sParams_eq, h]
  rfl

/-- Reading the array after the copy of a string longer than four gives the
string's character at that index. -/
theorem swizzleOf_long (s : List Char) (a : Fin 4 → Char) (h : 4 < s.length) (i : Fin 4) :
    s[i.val]? = some (swizzleOf (some s) a i) := by
  have h0 : s[0]? = some (s.getD 0 (Char.ofNat 0)) := by
    rw [List.getD_eq_getElem?_getD, List.getElem?_eq_getElem (by omega)]; rfl
  have h1 : s[1]? = some (s.getD 1 (Char.ofNat 0)) := by
    rw [List.getD_eq_getElem?_getD, List.getElem?_eq_getElem (by omega)]; rfl
  have h2 : s[2]? = some (s.getD 2 (Char.ofNat 0)) := by
    rw [List.getD_eq_getElem?_getD, List.getElem?_eq_getElem (by omega)]; rfl
  have h3 : s[3]? = some (s.getD 3 (Char.ofNat 0)) := by
    rw [List.getD_eq_getElem?_getD, List.getElem?_eq_getElem (by omega)]; rfl
  have hs : swizzleOf (some s) a =
      setAt (setAt (setAt (setAt a 0 (s.getD 0 (Char.ofNat 0))) 1 (s.getD 1 (Char.ofNat 0)))
        2 (s.getD 2 (Char.ofNat 0))) 3 (s.getD 3 (Char.ofNat 0)) := by
    simp only [swizzleOf, gt_iff_lt, h, if_true]
  rw [hs]
  fin_cases i
  · exact h0
  · exact h1
  · exact h2
  · exact h3

/-- The array is left as it was when the string is absent or has at most four
characters. -/
theorem swizzleOf_short (p : Option (List Char)) (a : Fin 4 → Char)
    (h : p = none ∨ ∃ s, p = some s ∧ s.length ≤ 4) : swizzleOf p a = a := by
  rcases h with rfl | ⟨s, rfl, hs⟩
  · rfl
  · have : ¬ s.length > 4 := by omega
    simp only [swizzleOf, this, if_false]

/-- The copy of a string longer than four depends on its first four
characters only. -/
theorem swizzleOf_take (s t : List Char) (a : Fin 4 → Char) (hs : 4 < s.length)
    (ht : 4 < t.length) (h : t.take 4 = s.take 4) :
    swizzleOf (some t) a = swizzleOf (some s) a := by
  have key : ∀ k, k < 4 → t.getD k (Char.ofNat 0) = s.getD k (Char.ofNat 0) := by
    intro k hk
    have e : t[k]? = s[k]? :=
      calc t[k]? = (t.take 4)[k]? := (@List.getElem?_take_of_lt _ t 4 k hk).symm
        _ = (s.take 4)[k]? := by rw [h]
        _ = s[k]? := @List.getElem?_take_of_lt _ s 4 k hk
    rw [List.getD_eq_getElem?_getD, List.getD_eq_getElem?_getD, e]
  simp only [swizzleOf, gt_iff_lt, hs, ht, if_true, key 0 (by omega), key 1 (by omega),
    key 2 (by omega), key 3 (by omega)]

/-! ## Properties of the two mergers -/

/-- C1: when the optional fields of the common set (verbose, no_sse,
thread_count) are all absent and the encoder-specific set has every optional
field absent, `intoCPPBasisUastcParams` and `intoCPPBasisEtc1sParams` each
return exactly the baseline block: `uastc` is the common set's flag,
`structSize` is the size of `ktxBasisParams`, every other member is zero,
`false` or NUL. -/
theorem C1_all_absent_returns_baseline (sz : Nat) (hsz : sz < 2 ^ 32) (c : KtxBasisParams)
    (hv : c.verbose = none) (hn : c.no_sse = none) (ht : c.thread_count = none) :
    let baseline : ktxBasisParams :=
      { structSize := sz, uastc := c.uastc, verbose := false, noSSE := false, threadCount := 0,
        compressionLevel := 0, qualityLevel := 0, maxEndpoints := 0, endpointRDOThreshold := 0,
        maxSelectors := 0, selectorRDOThreshold := 0, inputSwizzle := fun _ => Char.ofNat 0,
        normalMap := false, separateRGToRGB_A := false, preSwizzle := false,
        noEndpointRDO := false, noSelectorRDO := false, uastcFlags := 0, uastcRDO := false,
        uastcRDOQualityScalar := 0, uastcRDODictSize := 0,
        uastcRDOMaxSmoothBlockErrorScale := 0, uastcRDOMaxSmoothBlockStdDev := 0,
        uastcRDODontFavorSimplerModes := false, uastcRDONoMultithreading := false }
    intoCPPBasisUastcParams sz c KtxBasisUASTCParams.absent = .ok baseline ∧
      intoCPPBasisEtc1sParams sz c KtxBasisETC1SParams.absent = .ok baseline := by
  intro baseline
  constructor
  · rw [intoCPPBasisUastcParams_eq]
    simp only [uastcBlock, KtxBasisUASTCParams.absent, hv, hn, ht, Nat.mod_eq_of_lt hsz,
      Option.getD_none, Option.map_none', Option.isSome_none, swizzleOf, baseline]
  · rw [intoCPPBasisEtc1sParams_eq]
    simp only [etc1sBlock, etc1sFaults, KtxBasisETC1SParams.absent, hv, hn, ht,
      Nat.mod_eq_of_lt hsz, Option.getD_none, Option.isSome_none, swizzleOf, baseline,
      Bool.false_and, if_false, Bool.false_eq_true]

/-- C1, at the common set `{ uastc = true }` and a structure of 104 bytes. -/
theorem C1_all_absent_returns_baseline_witness :
    (104 < 2 ^ 32 ∧ (KtxBasisParams.absent true).verbose = none ∧
      (KtxBasisParams.absent true).no_sse = none ∧
      (KtxBasisParams.absent true).thread_count = none) ∧
    (let baseline : ktxBasisParams :=
      { structSize := 104, uastc := (KtxBasisParams.absent true).uastc, verbose := false,
        noSSE := false, threadCount := 0,
        compressionLevel := 0, qualityLevel := 0, maxEndpoints := 0, endpointRDOThreshold := 0,
        maxSelectors := 0, selectorRDOThreshold := 0, inputSwizzle := fun _ => Char.ofNat 0,
        normalMap := false, separateRGToRGB_A := false, preSwizzle := false,
        noEndpointRDO := false, noSelectorRDO := false, uastcFlags := 0, uastcRDO := false,
        uastcRDOQualityScalar := 0, uastcRDODictSize := 0,
        uastcRDOMaxSmoothBlockErrorScale := 0, uastcRDOMaxSmoothBlockStdDev := 0,
        uastcRDODontFavorSimplerModes := false, uastcRDONoMultithreading := false }
    intoCPPBasisUastcParams 104 (KtxBasisParams.absent true) KtxBasisUASTCParams.absent
        = .ok baseline ∧
      intoCPPBasisEtc1sParams 104 (KtxBasisParams.absent true) KtxBasisETC1SParams.absent
        = .ok baseline) :=
  ⟨⟨by decide, rfl, rfl, rfl⟩,
    C1_all_absent_returns_baseline 104 (by decide) (KtxBasisParams.absent true) rfl rfl rfl⟩

/-- C2: on every input `intoCPPBasisUastcParams` returns a block in which each
of the fields verbose, no_sse, thread_count, uastc_flags, uastc_rdo,
uastc_rdo_quality_scalar, uastc_rdo_dict_size,
uastc_rdo_max_smooth_block_error_scale, uastc_rdo_max_smooth_block_std_dev,
uastc_rdo_dont_favor_simpler_modes and uastc_rdo_no_multithreading that is
present with value V has its dense field equal to V (for uastc_flags, the
`value` inside the wrapper).  With `uastc = true` and only
uastc_rdo_quality_scalar present, holding 1.5 (binary32 `0x3FC00000`), the
block's uastcRDOQualityScalar is 1.5. -/
theorem C2_uastc_present_field_overrides (sz : Nat) (c : KtxBasisParams)
    (u : KtxBasisUASTCParams) :
    (∃ b, intoCPPBasisUastcParams sz c u = .ok b ∧
      (∀ v, c.verbose = some v → b.verbose = v) ∧
      (∀ v, c.no_sse = some v → b.noSSE = v) ∧
      (∀ v, c.thread_count = some v → b.threadCount = v) ∧
      (∀ w, u.uastc_flags = some w → b.uastcFlags = w.value) ∧
      (∀ v, u.uastc_rdo = some v → b.uastcRDO = v) ∧
      (∀ v, u.uastc_rdo_quality_scalar = some v → b.uastcRDOQualityScalar = v) ∧
      (∀ v, u.uastc_rdo_dict_size = some v → b.uastcRDODictSize = v) ∧
      (∀ v, u.uastc_rdo_max_smooth_block_error_scale = some v →
        b.uastcRDOMaxSmoothBlockErrorScale = v) ∧
      (∀ v, u.uastc_rdo_max_smooth_block_std_dev = some v →
        b.uastcRDOMaxSmoothBlockStdDev = v) ∧
      (∀ v, u.uastc_rdo_dont_favor_simpler_modes = some v →
        b.uastcRDODontFavorSimplerModes = v) ∧
      (∀ v, u.uastc_rdo_no_multithreading = some v → b.uastcRDONoMultithreading = v)) ∧
    (∃ b, intoCPPBasisUastcParams sz (KtxBasisParams.absent true)
        { KtxBasisUASTCParams.absent with uastc_rdo_quality_scalar := some 0x3FC00000 } = .ok b ∧
      b.uastcRDOQualityScalar = 0x3FC00000) := by
  refine ⟨⟨uastcBlock sz c u, intoCPPBasisUastcParams_eq sz c u, ?_⟩,
    ⟨_, intoCPPBasisUastcParams_eq _ _ _, rfl⟩⟩
  refine ⟨?_, ?_, ?_, ?_, ?_, ?_, ?_, ?_, ?_, ?_, ?_⟩ <;> intro v h <;>
    simp only [uastcBlock, h, Option.getD_some, Option.map_some']

/-- C2, at an input with all eleven fields present. -/
theorem C2_uastc_present_field_overrides_witness :
    ∃ b, intoCPPBasisUastcParams 104 ⟨true, some true, some true, some 8⟩
        ⟨some ⟨5⟩, some true, some 0x3FC00000, some 4096, some 0x41200000, some 0x41900000,
          some true, some true, none, none⟩ = .ok b ∧
      b.verbose = true ∧ b.noSSE = true ∧ b.threadCount = 8 ∧ b.uastcFlags = 5 ∧
      b.uastcRDO = true ∧ b.uastcRDOQualityScalar = 0x3FC00000 ∧ b.uastcRDODictSize = 4096 ∧
      b.uastcRDOMaxSmoothBlockErrorScale = 0x41200000 ∧
      b.uastcRDOMaxSmoothBlockStdDev = 0x41900000 ∧
      b.uastcRDODontFavorSimplerModes = true ∧ b.uastcRDONoMultithreading = true := by
  obtain ⟨b, hb, h1, h2, h3, h4, h5, h6, h7, h8, h9, h10, h11⟩ :=
    (C2_uastc_present_field_overrides 104 ⟨true, some true, some true, some 8⟩
      ⟨some ⟨5⟩, some true, some 0x3FC00000, some 4096, some 0x41200000, some 0x41900000,
        some true, some true, none, none⟩).1
  exact ⟨b, hb, h1 _ rfl, h2 _ rfl, h3 _ rfl, h4 _ rfl, h5 _ rfl, h6 _ rfl, h7 _ rfl,
    h8 _ rfl, h9 _ rfl, h10 _ rfl, h11 _ rfl⟩

/-- C3: the claim is that pre_swizzle present with value V gives
`preSwizzle = V`.  The source assigns the pointer, so the block's preSwizzle
is `true` whenever pre_swizzle is present: on every input it equals the
presence of pre_swizzle, and with pre_swizzle present holding `false` the
returned block has `preSwizzle = true`. -/
theorem C3_uastc_pre_swizzle_false_yields_true (sz : Nat) (c : KtxBasisParams) :
    (∀ u : KtxBasisUASTCParams, ∃ b, intoCPPBasisUastcParams sz c u = .ok b ∧
      b.preSwizzle = u.pre_swizzle.isSome) ∧
    (∃ b, intoCPPBasisUastcParams sz c
        { KtxBasisUASTCParams.absent with pre_swizzle := some false } = .ok b ∧
      b.preSwizzle = true) :=
  ⟨fun u => ⟨_, intoCPPBasisUastcParams_eq sz c u, rfl⟩,
    ⟨_, intoCPPBasisUastcParams_eq _ _ _, rfl⟩⟩


/-- C4: whenever `intoCPPBasisEtc1sParams` returns a block, each of the fields
verbose, no_sse, thread_count, compression_level, quality_level,
max_endpoints, endpoint_rdo_threshold, max_selectors, selector_rdo_threshold,
normal_map, separate_rgt_to_rgba, pre_swizzle and no_selector_rdo that is
present with value V has its dense field equal to V.  With compression_level
absent and only quality_level present, holding 128, the merger returns a block
with `qualityLevel = 128` and compressionLevel at its baseline value 0. -/
theorem C4_etc1s_present_field_overrides (sz : Nat) (c : KtxBasisParams)
    (e : KtxBasisETC1SParams) :
    (∀ b, intoCPPBasisEtc1sParams sz c e = .ok b →
      (∀ v, c.verbose = some v → b.verbose = v) ∧
      (∀ v, c.no_sse = some v → b.noSSE = v) ∧
      (∀ v, c.thread_count = some v → b.threadCount = v) ∧
      (∀ v, e.compression_level = some v → b.compressionLevel = v) ∧
      (∀ v, e.quality_level = some v → b.qualityLevel = v) ∧
      (∀ v, e.max_endpoints = some v → b.maxEndpoints = v) ∧
      (∀ v, e.endpoint_rdo_threshold = some v → b.endpointRDOThreshold = v) ∧
      (∀ v, e.max_selectors = some v → b.maxSelectors = v) ∧
      (∀ v, e.selector_rdo_threshold = some v → b.selectorRDOThreshold = v) ∧
      (∀ v, e.normal_map = some v → b.normalMap = v) ∧
      (∀ v, e.separate_rgt_to_rgba = some v → b.separateRGToRGB_A = v) ∧
      (∀ v, e.pre_swizzle = some v → b.preSwizzle = v) ∧
      (∀ v, e.no_selector_rdo = some v → b.noSelectorRDO = v)) ∧
    (∃ b, intoCPPBasisEtc1sParams sz (KtxBasisParams.absent false)
        { KtxBasisETC1SParams.absent with quality_level := some 128 } = .ok b ∧
      b.qualityLevel = 128 ∧ b.compressionLevel = 0) := by
  refine ⟨?_, ⟨_, intoCPPBasisEtc1sParams_of_not_faults _ _ _ rfl, rfl, rfl⟩⟩
  intro b hb
  obtain ⟨-, rfl⟩ := intoCPPBasisEtc1sParams_ok hb
  refine ⟨?_, ?_, ?_, ?_, ?_, ?_, ?_, ?_, ?_, ?_, ?_, ?_, ?_⟩ <;> intro v h <;>
    simp only [etc1sBlock, h, Option.getD_some]

/-- C4, at an input with all thirteen fields present and no_endpoint_rdo absent. -/
theorem C4_etc1s_present_field_overrides_witness :
    ∃ b, intoCPPBasisEtc1sParams 104 ⟨false, some true, some true, some 8⟩
        ⟨some 3, some 128, some 512, some 0x3FA00000, some 1024, some 0x3FC00000, none,
          some true, some true, some true, none, some true⟩ = .ok b ∧
      b.verbose = true ∧ b.noSSE = true ∧ b.threadCount = 8 ∧ b.compressionLevel = 3 ∧
      b.qualityLevel = 128 ∧ b.maxEndpoints = 512 ∧ b.endpointRDOThreshold = 0x3FA00000 ∧
      b.maxSelectors = 1024 ∧ b.selectorRDOThreshold = 0x3FC00000 ∧ b.normalMap = true ∧
      b.separateRGToRGB_A = true ∧ b.preSwizzle = true ∧ b.noSelectorRDO = true := by
  refine ⟨_, intoCPPBasisEtc1sParams_of_not_faults _ _ _ rfl, ?_⟩
  obtain ⟨h1, h2, h3, h4, h5, h6, h7, h8, h9, h10, h11, h12, h13⟩ :=
    (C4_etc1s_present_field_overrides 104 ⟨false, some true, some true, some 8⟩
      ⟨some 3, some 128, some 512, some 0x3FA00000, some 1024, some 0x3FC00000, none,
        some true, some true, some true, none, some true⟩).1 _
      (intoCPPBasisEtc1sParams_of_not_faults _ _ _ rfl)
  exact ⟨h1 _ rfl, h2 _ rfl, h3 _ rfl, h4 _ rfl, h5 _ rfl, h6 _ rfl, h7 _ rfl, h8 _ rfl,
    h9 _ rfl, h10 _ rfl, h11 _ rfl, h12 _ rfl, h13 _ rfl⟩

/-- C5: the claim is that `intoCPPBasisEtc1sParams` returns a block on every
input without reading an absent field.  The statement guarded by
no_endpoint_rdo reads `*no_selector_rdo`: the merger reads through a null
pointer exactly when no_endpoint_rdo is present and no_selector_rdo is absent,
returns a block on every other input, and faults on the set whose only present
field is no_endpoint_rdo. -/
theorem C5_etc1s_reads_absent_no_selector_rdo (sz : Nat) (c : KtxBasisParams) :
    (∀ e : KtxBasisETC1SParams, intoCPPBasisEtc1sParams sz c e = .error Fault.nullDeref ↔
      (e.no_endpoint_rdo.isSome = true ∧ e.no_selector_rdo = none)) ∧
    (∀ e : KtxBasisETC1SParams, (∃ b, intoCPPBasisEtc1sParams sz c e = .ok b) ↔
      ¬ (e.no_endpoint_rdo.isSome = true ∧ e.no_selector_rdo = none)) ∧
    (∀ v : Bool, intoCPPBasisEtc1sParams sz c
      { KtxBasisETC1SParams.absent with no_endpoint_rdo := some v } = .error Fault.nullDeref) := by
  have key : ∀ e : KtxBasisETC1SParams,
      etc1sFaults e = true ↔ (e.no_endpoint_rdo.isSome = true ∧ e.no_selector_rdo = none) := by
    intro e
    simp only [etc1sFaults, Bool.and_eq_true, Option.isNone_iff_eq_none]
  refine ⟨?_, ?_, ?_⟩
  · intro e
    rw [← key, intoCPPBasisEtc1sParams_eq]
    cases etc1sFaults e <;> simp
  · intro e
    rw [← key, intoCPPBasisEtc1sParams_eq]
    cases etc1sFaults e <;> simp
  · intro v
    rw [intoCPPBasisEtc1sParams_eq]
    rfl

/-- C6: when no_endpoint_rdo is present with value E and no_selector_rdo is
present with value S, `intoCPPBasisEtc1sParams` returns a block with
`noEndpointRDO = S` and `noSelectorRDO = S`; when no_endpoint_rdo is absent it
returns a block whose noEndpointRDO is at its baseline value `false`, whatever
no_selector_rdo is. -/
theorem C6_etc1s_no_endpoint_rdo_takes_selector_value (sz : Nat) (c : KtxBasisParams)
    (e : KtxBasisETC1SParams) :
    (∀ E S : Bool, e.no_endpoint_rdo = some E → e.no_selector_rdo = some S →
      ∃ b, intoCPPBasisEtc1sParams sz c e = .ok b ∧ b.noEndpointRDO = S ∧ b.noSelectorRDO = S) ∧
    (e.no_endpoint_rdo = none →
      ∃ b, intoCPPBasisEtc1sParams sz c e = .ok b ∧ b.noEndpointRDO = false) := by
  constructor
  · intro E S hE hS
    refine ⟨_, intoCPPBasisEtc1sParams_of_not_faults sz c e ?_, ?_, ?_⟩
    · simp only [etc1sFaults, hE, hS, Option.isSome_some, Option.isNone_some, Bool.and_false]
    · simp only [etc1sBlock, hE, hS, Option.isSome_some, if_true, Option.getD_some]
    · simp only [etc1sBlock, hS, Option.getD_some]
  · intro hE
    refine ⟨_, intoCPPBasisEtc1sParams_of_not_faults sz c e ?_, ?_⟩
    · simp only [etc1sFaults, hE, Option.isSome_none, Bool.false_and]
    · simp only [etc1sBlock, hE, Option.isSome_none, Bool.false_eq_true, if_false]

/-- C6, at a set with no_endpoint_rdo holding `false` and no_selector_rdo
holding `true`, and at a set with only no_selector_rdo present. -/
theorem C6_etc1s_no_endpoint_rdo_takes_selector_value_witness :
    (∃ b, intoCPPBasisEtc1sParams 104 (KtxBasisParams.absent false)
        { KtxBasisETC1SParams.absent with
          no_endpoint_rdo := some false, no_selector_rdo := some true } = .ok b ∧
      b.noEndpointRDO = true ∧ b.noSelectorRDO = true) ∧
    (∃ b, intoCPPBasisEtc1sParams 104 (KtxBasisParams.absent false)
        { KtxBasisETC1SParams.absent with no_selector_rdo := some true } = .ok b ∧
      b.noEndpointRDO = false) :=
  ⟨(C6_etc1s_no_endpoint_rdo_takes_selector_value 104 (KtxBasisParams.absent false)
      { KtxBasisETC1SParams.absent with
        no_endpoint_rdo := some false, no_selector_rdo := some true }).1 false true rfl rfl,
    (C6_etc1s_no_endpoint_rdo_takes_selector_value 104 (KtxBasisParams.absent false)
      { KtxBasisETC1SParams.absent with no_selector_rdo := some true }).2 rfl⟩


/-- C7: in the block returned by either merger, every dense field whose sparse
source field is absent has its baseline value (zero, `false`, NUL), and so has
every field that belongs to the other encoder only: `intoCPPBasisUastcParams`
leaves compressionLevel, qualityLevel, maxEndpoints, endpointRDOThreshold,
maxSelectors, selectorRDOThreshold, normalMap, separateRGToRGB_A,
noEndpointRDO and noSelectorRDO at baseline, `intoCPPBasisEtc1sParams` leaves
every `uastc*` field at baseline.  The fields listed are all the fields of the
block except uastc and structSize. -/
theorem C7_absent_fields_stay_at_baseline (sz : Nat) (c : KtxBasisParams) :
    (∀ u : KtxBasisUASTCParams, ∃ b, intoCPPBasisUastcParams sz c u = .ok b ∧
      (c.verbose = none → b.verbose = false) ∧
      (c.no_sse = none → b.noSSE = false) ∧
      (c.thread_count = none → b.threadCount = 0) ∧
      (u.uastc_flags = none → b.uastcFlags = 0) ∧
      (u.uastc_rdo = none → b.uastcRDO = false) ∧
      (u.uastc_rdo_quality_scalar = none → b.uastcRDOQualityScalar = 0) ∧
      (u.uastc_rdo_dict_size = none → b.uastcRDODictSize = 0) ∧
      (u.uastc_rdo_max_smooth_block_error_scale = none → b.uastcRDOMaxSmoothBlockErrorScale = 0) ∧
      (u.uastc_rdo_max_smooth_block_std_dev = none → b.uastcRDOMaxSmoothBlockStdDev = 0) ∧
      (u.uastc_rdo_dont_favor_simpler_modes = none → b.uastcRDODontFavorSimplerModes = false) ∧
      (u.uastc_rdo_no_multithreading = none → b.uastcRDONoMultithreading = false) ∧
      (u.input_swizzle = none → ∀ i, b.inputSwizzle i = Char.ofNat 0) ∧
      (u.pre_swizzle = none → b.preSwizzle = false) ∧
      b.compressionLevel = 0 ∧ b.qualityLevel = 0 ∧ b.maxEndpoints = 0 ∧
      b.endpointRDOThreshold = 0 ∧ b.maxSelectors = 0 ∧ b.selectorRDOThreshold = 0 ∧
      b.normalMap = false ∧ b.separateRGToRGB_A = false ∧ b.noEndpointRDO = false ∧
      b.noSelectorRDO = false) ∧
    (∀ (e : KtxBasisETC1SParams) (b : ktxBasisParams), intoCPPBasisEtc1sParams sz c e = .ok b →
      (c.verbose = none → b.verbose = false) ∧
      (c.no_sse = none → b.noSSE = false) ∧
      (c.thread_count = none → b.threadCount = 0) ∧
      (e.compression_level = none → b.compressionLevel = 0) ∧
      (e.quality_level = none → b.qualityLevel = 0) ∧
      (e.max_endpoints = none → b.maxEndpoints = 0) ∧
      (e.endpoint_rdo_threshold = none → b.endpointRDOThreshold = 0) ∧
      (e.max_selectors = none → b.maxSelectors = 0) ∧
      (e.selector_rdo_threshold = none → b.selectorRDOThreshold = 0) ∧
      (e.input_swizzle = none → ∀ i, b.inputSwizzle i = Char.ofNat 0) ∧
      (e.normal_map = none → b.normalMap = false) ∧
      (e.separate_rgt_to_rgba = none → b.separateRGToRGB_A = false) ∧
      (e.pre_swizzle = none → b.preSwizzle = false) ∧
      (e.no_endpoint_rdo = none → b.noEndpointRDO = false) ∧
      (e.no_selector_rdo = none → b.noSelectorRDO = false) ∧
      b.uastcFlags = 0 ∧ b.uastcRDO = false ∧ b.uastcRDOQualityScalar = 0 ∧
      b.uastcRDODictSize = 0 ∧ b.uastcRDOMaxSmoothBlockErrorScale = 0 ∧
      b.uastcRDOMaxSmoothBlockStdDev = 0 ∧ b.uastcRDODontFavorSimplerModes = false ∧
      b.uastcRDONoMultithreading = false) := by
  constructor
  · intro u
    refine ⟨_, intoCPPBasisUastcParams_eq sz c u, ?_⟩
    refine ⟨?_, ?_, ?_, ?_, ?_, ?_, ?_, ?_, ?_, ?_, ?_, ?_, ?_,
      rfl, rfl, rfl, rfl, rfl, rfl, rfl, rfl, rfl, rfl⟩ <;>
      intro h <;> simp [uastcBlock, swizzleOf, h]
  · intro e b hb
    obtain ⟨-, rfl⟩ := intoCPPBasisEtc1sParams_ok hb
    refine ⟨?_, ?_, ?_, ?_, ?_, ?_, ?_, ?_, ?_, ?_, ?_, ?_, ?_, ?_, ?_,
      rfl, rfl, rfl, rfl, rfl, rfl, rfl, rfl⟩ <;>
      intro h <;> simp [etc1sBlock, swizzleOf, h]

/-- C7, at a UASTC set whose only present field is uastc_rdo_quality_scalar and
an ETC1S set whose only present field is quality_level. -/
theorem C7_absent_fields_stay_at_baseline_witness :
    (∃ b, intoCPPBasisUastcParams 104 (KtxBasisParams.absent true)
        { KtxBasisUASTCParams.absent with uastc_rdo_quality_scalar := some 0x3FC00000 } = .ok b ∧
      b.verbose = false ∧ b.noSSE = false ∧ b.threadCount = 0 ∧ b.uastcFlags = 0 ∧
      b.uastcRDO = false ∧ b.uastcRDODictSize = 0 ∧ b.uastcRDOMaxSmoothBlockErrorScale = 0 ∧
      b.uastcRDOMaxSmoothBlockStdDev = 0 ∧ b.uastcRDODontFavorSimplerModes = false ∧
      b.uastcRDONoMultithreading = false ∧ (∀ i, b.inputSwizzle i = Char.ofNat 0) ∧
      b.preSwizzle = false) ∧
    (∃ b, intoCPPBasisEtc1sParams 104 (KtxBasisParams.absent false)
        { KtxBasisETC1SParams.absent with quality_level := some 128 } = .ok b ∧
      b.verbose = false ∧ b.noSSE = false ∧ b.threadCount = 0 ∧ b.compressionLevel = 0 ∧
      b.maxEndpoints = 0 ∧ b.endpointRDOThreshold = 0 ∧ b.maxSelectors = 0 ∧
      b.selectorRDOThreshold = 0 ∧ (∀ i, b.inputSwizzle i = Char.ofNat 0) ∧
      b.normalMap = false ∧ b.separateRGToRGB_A = false ∧ b.preSwizzle = false ∧
      b.noEndpointRDO = false ∧ b.noSelectorRDO = false) := by
  constructor
  · obtain ⟨b, hb, h1, h2, h3, h4, h5, h6, h7, h8, h9, h10, h11, h12, h13, -⟩ :=
      (C7_absent_fields_stay_at_baseline 104 (KtxBasisParams.absent true)).1
        { KtxBasisUASTCParams.absent with uastc_rdo_quality_scalar := some 0x3FC00000 }
    exact ⟨b, hb, h1 rfl, h2 rfl, h3 rfl, h4 rfl, h5 rfl, h7 rfl, h8 rfl, h9 rfl, h10 rfl, h11 rfl, h12 rfl, h13 rfl⟩
  · refine ⟨_, intoCPPBasisEtc1sParams_of_not_faults _ _ _ rfl, ?_⟩
    obtain ⟨h1, h2, h3, h4, h5, h6, h7, h8, h9, h10, h11, h12, h13, h14, h15, -⟩ :=
      (C7_absent_fields_stay_at_baseline 104 (KtxBasisParams.absent false)).2
        { KtxBasisETC1SParams.absent with quality_level := some 128 } _
        (intoCPPBasisEtc1sParams_of_not_faults _ _ _ rfl)
    exact ⟨h1 rfl, h2 rfl, h3 rfl, h4 rfl, h6 rfl, h7 rfl, h8 rfl, h9 rfl, h10 rfl, h11 rfl, h12 rfl, h13 rfl, h14 rfl, h15 rfl⟩


/-- C8: the swizzle gate, for both mergers.  If input_swizzle is absent or is
a string of length at most 4, the returned block's inputSwizzle is the
baseline array of NULs; if input_swizzle is present with length above 4,
`inputSwizzle[i]` is the string's character `i` for `i = 0, 1, 2, 3`, and
replacing the string by another string longer than 4 with the same first four
characters does not change the merger's result. -/
theorem C8_swizzle_gate (sz : Nat) (c : KtxBasisParams) :
    (∀ u : KtxBasisUASTCParams, ∃ b, intoCPPBasisUastcParams sz c u = .ok b ∧
      ((u.input_swizzle = none ∨ ∃ s, u.input_swizzle = some s ∧ s.length ≤ 4) →
        ∀ i, b.inputSwizzle i = Char.ofNat 0) ∧
      (∀ s, u.input_swizzle = some s → 4 < s.length →
        ∀ i : Fin 4, s[i.val]? = some (b.inputSwizzle i))) ∧
    (∀ (u : KtxBasisUASTCParams) (s t : List Char), u.input_swizzle = some s →
      4 < s.length → 4 < t.length → t.take 4 = s.take 4 →
      intoCPPBasisUastcParams sz c { u with input_swizzle := some t } =
        intoCPPBasisUastcParams sz c u) ∧
    (∀ (e : KtxBasisETC1SParams) (b : ktxBasisParams), intoCPPBasisEtc1sParams sz c e = .ok b →
      ((e.input_swizzle = none ∨ ∃ s, e.input_swizzle = some s ∧ s.length ≤ 4) →
        ∀ i, b.inputSwizzle i = Char.ofNat 0) ∧
      (∀ s, e.input_swizzle = some s → 4 < s.length →
        ∀ i : Fin 4, s[i.val]? = some (b.inputSwizzle i))) ∧
    (∀ (e : KtxBasisETC1SParams) (s t : List Char), e.input_swizzle = some s →
      4 < s.length → 4 < t.length → t.take 4 = s.take 4 →
      intoCPPBasisEtc1sParams sz c { e with input_swizzle := some t } =
        intoCPPBasisEtc1sParams sz c e) := by
  refine ⟨?_, ?_, ?_, ?_⟩
  · intro u
    refine ⟨_, intoCPPBasisUastcParams_eq sz c u, ?_, ?_⟩
    · intro h i
      simp only [uastcBlock, swizzleOf_short _ _ h]
    · intro s hs hlen i
      simp only [uastcBlock, hs]
      exact swizzleOf_long s _ hlen i
  · intro u s t hs hlen htlen htake
    rw [intoCPPBasisUastcParams_eq, intoCPPBasisUastcParams_eq]
    simp only [uastcBlock, hs, swizzleOf_take s t _ hlen htlen htake]
  · intro e b hb
    obtain ⟨-, rfl⟩ := intoCPPBasisEtc1sParams_ok hb
    refine ⟨?_, ?_⟩
    · intro h i
      simp only [etc1sBlock, swizzleOf_short _ _ h]
    · intro s hs hlen i
      simp only [etc1sBlock, hs]
      exact swizzleOf_long s _ hlen i
  · intro e s t hs hlen htlen htake
    rw [intoCPPBasisEtc1sParams_eq, intoCPPBasisEtc1sParams_eq]
    simp only [etc1sFaults, etc1sBlock, hs, swizzleOf_take s t _ hlen htlen htake]

/-- C8, at the strings "rgb" (left at baseline) and "rgbaX", "rgbaYZ" (first
four characters copied, the rest without effect), for both mergers. -/
theorem C8_swizzle_gate_witness :
    (∃ b, intoCPPBasisUastcParams 104 (KtxBasisParams.absent true)
        { KtxBasisUASTCParams.absent with input_swizzle := some ['r', 'g', 'b'] } = .ok b ∧
      ∀ i, b.inputSwizzle i = Char.ofNat 0) ∧
    (∃ b, intoCPPBasisUastcParams 104 (KtxBasisParams.absent true)
        { KtxBasisUASTCParams.absent with
          input_swizzle := some ['r', 'g', 'b', 'a', 'X'] } = .ok b ∧
      ∀ i : Fin 4, ['r', 'g', 'b', 'a', 'X'][i.val]? = some (b.inputSwizzle i)) ∧
    (intoCPPBasisUastcParams 104 (KtxBasisParams.absent true)
        { KtxBasisUASTCParams.absent with
          input_swizzle := some ['r', 'g', 'b', 'a', 'Y', 'Z'] } =
      intoCPPBasisUastcParams 104 (KtxBasisParams.absent true)
        { KtxBasisUASTCParams.absent with
          input_swizzle := some ['r', 'g', 'b', 'a', 'X'] }) ∧
    (∃ b, intoCPPBasisEtc1sParams 104 (KtxBasisParams.absent false)
        { KtxBasisETC1SParams.absent with input_swizzle := some ['r', 'g', 'b'] } = .ok b ∧
      ∀ i, b.inputSwizzle i = Char.ofNat 0) ∧
    (∃ b, intoCPPBasisEtc1sParams 104 (KtxBasisParams.absent false)
        { KtxBasisETC1SParams.absent with
          input_swizzle := some ['r', 'g', 'b', 'a', 'X'] } = .ok b ∧
      ∀ i : Fin 4, ['r', 'g', 'b', 'a', 'X'][i.val]? = some (b.inputSwizzle i)) ∧
    (intoCPPBasisEtc1sParams 104 (KtxBasisParams.absent false)
        { KtxBasisETC1SParams.absent with
          input_swizzle := some ['r', 'g', 'b', 'a', 'Y', 'Z'] } =
      intoCPPBasisEtc1sParams 104 (KtxBasisParams.absent false)
        { KtxBasisETC1SParams.absent with
          input_swizzle := some ['r', 'g', 'b', 'a', 'X'] }) := by
  refine ⟨?_, ?_, ?_, ?_, ?_, ?_⟩
  · obtain ⟨b, hb, h1, -⟩ := (C8_swizzle_gate 104 (KtxBasisParams.absent true)).1
      { KtxBasisUASTCParams.absent with input_swizzle := some ['r', 'g', 'b'] }
    exact ⟨b, hb, h1 (Or.inr ⟨_, rfl, by decide⟩)⟩
  · obtain ⟨b, hb, -, h2⟩ := (C8_swizzle_gate 104 (KtxBasisParams.absent true)).1
      { KtxBasisUASTCParams.absent with input_swizzle := some ['r', 'g', 'b', 'a', 'X'] }
    exact ⟨b, hb, h2 _ rfl (by decide)⟩
  · exact (C8_swizzle_gate 104 (KtxBasisParams.absent true)).2.1
      { KtxBasisUASTCParams.absent with input_swizzle := some ['r', 'g', 'b', 'a', 'X'] }
      _ ['r', 'g', 'b', 'a', 'Y', 'Z'] rfl (by decide) (by decide) rfl
  · refine ⟨_, intoCPPBasisEtc1sParams_of_not_faults _ _ _ rfl, ?_⟩
    exact ((C8_swizzle_gate 104 (KtxBasisParams.absent false)).2.2.1
      { KtxBasisETC1SParams.absent with input_swizzle := some ['r', 'g', 'b'] } _
      (intoCPPBasisEtc1sParams_of_not_faults _ _ _ rfl)).1 (Or.inr ⟨_, rfl, by decide⟩)
  · refine ⟨_, intoCPPBasisEtc1sParams_of_not_faults _ _ _ rfl, ?_⟩
    exact ((C8_swizzle_gate 104 (KtxBasisParams.absent false)).2.2.1
      { KtxBasisETC1SParams.absent with input_swizzle := some ['r', 'g', 'b', 'a', 'X'] } _
      (intoCPPBasisEtc1sParams_of_not_faults _ _ _ rfl)).2 _ rfl (by decide)
  · exact (C8_swizzle_gate 104 (KtxBasisParams.absent false)).2.2.2
      { KtxBasisETC1SParams.absent with input_swizzle := some ['r', 'g', 'b', 'a', 'X'] }
      _ ['r', 'g', 'b', 'a', 'Y', 'Z'] rfl (by decide) (by decide) rfl

/-- C9, as stated, fails: the claim is that a supplied string of at least 4
characters, "rgba" included, is copied, and that the array is at baseline only
when no string is supplied.  With input_swizzle = "rgba" the UASTC merger
returns a block whose inputSwizzle is the baseline array of NULs, not the
characters of the string. -/
theorem C9_four_character_swizzle_left_at_baseline :
    ∃ b, intoCPPBasisUastcParams 104 (KtxBasisParams.absent true)
        { KtxBasisUASTCParams.absent with input_swizzle := some ['r', 'g', 'b', 'a'] } = .ok b ∧
      (∀ i, b.inputSwizzle i = Char.ofNat 0) ∧
      ¬ (∀ i : Fin 4, ['r', 'g', 'b', 'a'][i.val]? = some (b.inputSwizzle i)) := by
  refine ⟨_, intoCPPBasisUastcParams_eq _ _ _, fun i => rfl, ?_⟩
  intro h
  have h0 := h 0
  revert h0
  decide

/-- C9, amended: for both mergers, a supplied input swizzle string of more
than 4 characters makes the block's inputSwizzle equal to the first 4
characters of the string; when no string is supplied, or the supplied string
has at most 4 characters (as "rgba" has), inputSwizzle is the baseline array. -/
theorem C9_swizzle_copied_only_above_four (sz : Nat) (c : KtxBasisParams) :
    (∀ u : KtxBasisUASTCParams, ∃ b, intoCPPBasisUastcParams sz c u = .ok b ∧
      (∀ s, u.input_swizzle = some s → 4 < s.length →
        ∀ i : Fin 4, s[i.val]? = some (b.inputSwizzle i)) ∧
      (u.input_swizzle = none → ∀ i, b.inputSwizzle i = Char.ofNat 0) ∧
      (∀ s, u.input_swizzle = some s → s.length ≤ 4 →
        ∀ i, b.inputSwizzle i = Char.ofNat 0)) ∧
    (∀ (e : KtxBasisETC1SParams) (b : ktxBasisParams), intoCPPBasisEtc1sParams sz c e = .ok b →
      (∀ s, e.input_swizzle = some s → 4 < s.length →
        ∀ i : Fin 4, s[i.val]? = some (b.inputSwizzle i)) ∧
      (e.input_swizzle = none → ∀ i, b.inputSwizzle i = Char.ofNat 0) ∧
      (∀ s, e.input_swizzle = some s → s.length ≤ 4 →
        ∀ i, b.inputSwizzle i = Char.ofNat 0)) := by
  constructor
  · intro u
    refine ⟨_, intoCPPBasisUastcParams_eq sz c u, ?_, ?_, ?_⟩
    · intro s hs hlen i
      simp only [uastcBlock, hs]
      exact swizzleOf_long s _ hlen i
    · intro h i
      simp only [uastcBlock, swizzleOf_short _ _ (Or.inl h)]
    · intro s hs hlen i
      simp only [uastcBlock, swizzleOf_short _ _ (Or.inr ⟨s, hs, hlen⟩)]
  · intro e b hb
    obtain ⟨-, rfl⟩ := intoCPPBasisEtc1sParams_ok hb
    refine ⟨?_, ?_, ?_⟩
    · intro s hs hlen i
      simp only [etc1sBlock, hs]
      exact swizzleOf_long s _ hlen i
    · intro h i
      simp only [etc1sBlock, swizzleOf_short _ _ (Or.inl h)]
    · intro s hs hlen i
      simp only [etc1sBlock, swizzleOf_short _ _ (Or.inr ⟨s, hs, hlen⟩)]

/-- C9 amended, at "rgbaX" and "rgba" for the UASTC merger and at "rgbaX" and
no string for the ETC1S merger. -/
theorem C9_swizzle_copied_only_above_four_witness :
    (∃ b, intoCPPBasisUastcParams 104 (KtxBasisParams.absent true)
        { KtxBasisUASTCParams.absent with
          input_swizzle := some ['r', 'g', 'b', 'a', 'X'] } = .ok b ∧
      ∀ i : Fin 4, ['r', 'g', 'b', 'a', 'X'][i.val]? = some (b.inputSwizzle i)) ∧
    (∃ b, intoCPPBasisUastcParams 104 (KtxBasisParams.absent true)
        { KtxBasisUASTCParams.absent with input_swizzle := some ['r', 'g', 'b', 'a'] } = .ok b ∧
      ∀ i, b.inputSwizzle i = Char.ofNat 0) ∧
    (∃ b, intoCPPBasisEtc1sParams 104 (KtxBasisParams.absent false)
        { KtxBasisETC1SParams.absent with
          input_swizzle := some ['r', 'g', 'b', 'a', 'X'] } = .ok b ∧
      ∀ i : Fin 4, ['r', 'g', 'b', 'a', 'X'][i.val]? = some (b.inputSwizzle i)) ∧
    (∃ b, intoCPPBasisEtc1sParams 104 (KtxBasisParams.absent false)
        KtxBasisETC1SParams.absent = .ok b ∧
      ∀ i, b.inputSwizzle i = Char.ofNat 0) := by
  refine ⟨?_, ?_, ?_, ?_⟩
  · obtain ⟨b, hb, h1, -, -⟩ :=
      (C9_swizzle_copied_only_above_four 104 (KtxBasisParams.absent true)).1
        { KtxBasisUASTCParams.absent with input_swizzle := some ['r', 'g', 'b', 'a', 'X'] }
    exact ⟨b, hb, h1 _ rfl (by decide)⟩
  · obtain ⟨b, hb, -, -, h3⟩ :=
      (C9_swizzle_copied_only_above_four 104 (KtxBasisParams.absent true)).1
        { KtxBasisUASTCParams.absent with input_swizzle := some ['r', 'g', 'b', 'a'] }
    exact ⟨b, hb, h3 _ rfl (by decide)⟩
  · refine ⟨_, intoCPPBasisEtc1sParams_of_not_faults _ _ _ rfl, ?_⟩
    exact ((C9_swizzle_copied_only_above_four 104 (KtxBasisParams.absent false)).2
      { KtxBasisETC1SParams.absent with input_swizzle := some ['r', 'g', 'b', 'a', 'X'] } _
      (intoCPPBasisEtc1sParams_of_not_faults _ _ _ rfl)).1 _ rfl (by decide)
  · refine ⟨_, intoCPPBasisEtc1sParams_of_not_faults _ _ _ rfl, ?_⟩
    exact ((C9_swizzle_copied_only_above_four 104 (KtxBasisParams.absent false)).2
      KtxBasisETC1SParams.absent _
      (intoCPPBasisEtc1sParams_of_not_faults _ _ _ rfl)).2.1 rfl

/-- C10: the size stamp.  With `sizeof(ktxBasisParams)` representable in the
32-bit structSize field, `intoCPPBasisUastcParams` returns on every input a
block whose structSize is the size of the structure, and every block returned
by `intoCPPBasisEtc1sParams` has structSize equal to the size of the
structure: no sparse field, present or absent, changes it. -/
theorem C10_struct_size_is_sizeof (sz : Nat) (hsz : sz < 2 ^ 32) (c : KtxBasisParams) :
    (∀ u : KtxBasisUASTCParams, ∃ b, intoCPPBasisUastcParams sz c u = .ok b ∧
      b.structSize = sz) ∧
    (∀ (e : KtxBasisETC1SParams) (b : ktxBasisParams), intoCPPBasisEtc1sParams sz c e = .ok b →
      b.structSize = sz) := by
  constructor
  · intro u
    exact ⟨_, intoCPPBasisUastcParams_eq sz c u, Nat.mod_eq_of_lt hsz⟩
  · intro e b hb
    obtain ⟨-, rfl⟩ := intoCPPBasisEtc1sParams_ok hb
    exact Nat.mod_eq_of_lt hsz

/-- C10, at a structure of 104 bytes and sets with every field present. -/
theorem C10_struct_size_is_sizeof_witness :
    104 < 2 ^ 32 ∧
    (∃ b, intoCPPBasisUastcParams 104 ⟨true, some true, some true, some 8⟩
        ⟨some ⟨5⟩, some true, some 0x3FC00000, some 4096, some 0x41200000, some 0x41900000,
          some true, some true, some ['r', 'g', 'b', 'a', 'X'], some true⟩ = .ok b ∧
      b.structSize = 104) ∧
    (∃ b, intoCPPBasisEtc1sParams 104 ⟨false, some true, some true, some 8⟩
        ⟨some 3, some 128, some 512, some 0x3FA00000, some 1024, some 0x3FC00000,
          some ['r', 'g', 'b', 'a', 'X'], some true, some true, some true, some false,
          some true⟩ = .ok b ∧
      b.structSize = 104) :=
  ⟨by decide,
    (C10_struct_size_is_sizeof 104 (by decide) ⟨true, some true, some true, some 8⟩).1 _,
    ⟨_, intoCPPBasisEtc1sParams_of_not_faults _ _ _ rfl,
      (C10_struct_size_is_sizeof 104 (by decide) ⟨false, some true, some true, some 8⟩).2 _ _
        (intoCPPBasisEtc1sParams_of_not_faults _ _ _ rfl)⟩⟩


/-- C12: the ASTC invoker.  With `sizeof(ktxAstcParams)` representable in the
32-bit structSize field, for every external encoder, handle and
caller-supplied block `p`, whatever structSize it arrives with,
`ktxTexture2_CompressAstcExWrapped` makes one call of the encoder, with the
handle and a block whose structSize is the size of `ktxAstcParams` and whose
other members are those of `p`, and returns the encoder's result code. -/
theorem C12_astc_invoker_stamps_and_relays {Texture Other Code : Type} (sz : Nat)
    (hsz : sz < 2 ^ 32) (enc : Texture → ktxAstcParams Other → Code) (texture : Texture)
    (p : ktxAstcParams Other) :
    ∃ q : ktxAstcParams Other, q.structSize = sz ∧ q.other = p.other ∧
      ktxTexture2_CompressAstcExWrapped sz enc texture (some p) =
        .ok { result := enc texture q, calls := [(texture, q)] } := by
  refine ⟨{ p with structSize := sz }, rfl, rfl, ?_⟩
  unfold ktxTexture2_CompressAstcExWrapped
  rw [Nat.mod_eq_of_lt hsz]
  rfl

/-- C12, at a structure of 28 bytes and a block arriving with structSize 0,
with the encoder that returns the stamped size plus the handle. -/
theorem C12_astc_invoker_stamps_and_relays_witness :
    28 < 2 ^ 32 ∧
    ∃ q : ktxAstcParams (Nat × Bool), q.structSize = 28 ∧ q.other = (6, true) ∧
      ktxTexture2_CompressAstcExWrapped 28
        (fun (t : Nat) (a : ktxAstcParams (Nat × Bool)) => a.structSize + t) 7
        (some { structSize := 0, other := (6, true) }) =
        .ok { result := q.structSize + 7, calls := [(7, q)] } :=
  ⟨by decide, C12_astc_invoker_stamps_and_relays 28 (by decide)
    (fun (t : Nat) (a : ktxAstcParams (Nat × Bool)) => a.structSize + t) 7
    { structSize := 0, other := (6, true) }⟩


/-- C13: the mergers are deterministic, and the members they never assign are
fixed by the initialiser.  `intoCPPBasisUastcParams` returns a block on every
pair of sparse sets, and every block it returns for that pair is that block,
member for member; the ten members that no statement of it assigns
(compressionLevel, qualityLevel, maxEndpoints, endpointRDOThreshold,
maxSelectors, selectorRDOThreshold, normalMap, separateRGToRGB_A,
noEndpointRDO, noSelectorRDO) are those of the initialiser
`{ .uastc = ... }`, whatever the sparse sets hold.  Two blocks returned by
`intoCPPBasisEtc1sParams` for the same pair are equal, member for member, and
the eight `uastc*` members, which no statement of it assigns, are those of the
initialiser.  In both the member uastc is the initialiser's. -/
theorem C13_mergers_are_deterministic (sz : Nat) (c : KtxBasisParams) :
    (∀ u : KtxBasisUASTCParams, ∃ b, intoCPPBasisUastcParams sz c u = .ok b ∧
      (∀ b', intoCPPBasisUastcParams sz c u = .ok b' → b' = b) ∧
      b.uastc = (designatedInit c.uastc).uastc ∧
      b.compressionLevel = (designatedInit c.uastc).compressionLevel ∧
      b.qualityLevel = (designatedInit c.uastc).qualityLevel ∧
      b.maxEndpoints = (designatedInit c.uastc).maxEndpoints ∧
      b.endpointRDOThreshold = (designatedInit c.uastc).endpointRDOThreshold ∧
      b.maxSelectors = (designatedInit c.uastc).maxSelectors ∧
      b.selectorRDOThreshold = (designatedInit c.uastc).selectorRDOThreshold ∧
      b.normalMap = (designatedInit c.uastc).normalMap ∧
      b.separateRGToRGB_A = (designatedInit c.uastc).separateRGToRGB_A ∧
      b.noEndpointRDO = (designatedInit c.uastc).noEndpointRDO ∧
      b.noSelectorRDO = (designatedInit c.uastc).noSelectorRDO) ∧
    (∀ (e : KtxBasisETC1SParams) (b : ktxBasisParams), intoCPPBasisEtc1sParams sz c e = .ok b →
      (∀ b', intoCPPBasisEtc1sParams sz c e = .ok b' → b' = b) ∧
      b.uastc = (designatedInit c.uastc).uastc ∧
      b.uastcFlags = (designatedInit c.uastc).uastcFlags ∧
      b.uastcRDO = (designatedInit c.uastc).uastcRDO ∧
      b.uastcRDOQualityScalar = (designatedInit c.uastc).uastcRDOQualityScalar ∧
      b.uastcRDODictSize = (designatedInit c.uastc).uastcRDODictSize ∧
      b.uastcRDOMaxSmoothBlockErrorScale =
        (designatedInit c.uastc).uastcRDOMaxSmoothBlockErrorScale ∧
      b.uastcRDOMaxSmoothBlockStdDev = (designatedInit c.uastc).uastcRDOMaxSmoothBlockStdDev ∧
      b.uastcRDODontFavorSimplerModes =
        (designatedInit c.uastc).uastcRDODontFavorSimplerModes ∧
      b.uastcRDONoMultithreading = (designatedInit c.uastc).uastcRDONoMultithreading) := by
  constructor
  · intro u
    refine ⟨_, intoCPPBasisUastcParams_eq sz c u, ?_,
      rfl, rfl, rfl, rfl, rfl, rfl, rfl, rfl, rfl, rfl, rfl⟩
    intro b' h'
    rw [intoCPPBasisUastcParams_eq] at h'
    exact (Except.ok.inj h').symm
  · intro e b hb
    refine ⟨?_, ?_⟩
    · intro b' h'
      rw [hb] at h'
      exact (Except.ok.inj h').symm
    · obtain ⟨-, rfl⟩ := intoCPPBasisEtc1sParams_ok hb
      exact ⟨rfl, rfl, rfl, rfl, rfl, rfl, rfl, rfl, rfl⟩

/-- C13, at a UASTC set and an ETC1S set with one field present: each merger
returns a block, every block it returns on that input is that block, and the
members it never assigns are zero or `false`, as the initialiser leaves them. -/
theorem C13_mergers_are_deterministic_witness :
    (∃ b, intoCPPBasisUastcParams 104 (KtxBasisParams.absent true)
        { KtxBasisUASTCParams.absent with uastc_rdo_dict_size := some 4096 } = .ok b ∧
      (∀ b', intoCPPBasisUastcParams 104 (KtxBasisParams.absent true)
        { KtxBasisUASTCParams.absent with uastc_rdo_dict_size := some 4096 } = .ok b' →
        b' = b) ∧
      b.uastc = true ∧ b.compressionLevel = 0 ∧ b.qualityLevel = 0 ∧ b.maxEndpoints = 0 ∧
      b.endpointRDOThreshold = 0 ∧ b.maxSelectors = 0 ∧ b.selectorRDOThreshold = 0 ∧
      b.normalMap = false ∧ b.separateRGToRGB_A = false ∧ b.noEndpointRDO = false ∧
      b.noSelectorRDO = false) ∧
    (∃ b, intoCPPBasisEtc1sParams 104 (KtxBasisParams.absent false)
        { KtxBasisETC1SParams.absent with quality_level := some 128 } = .ok b ∧
      (∀ b', intoCPPBasisEtc1sParams 104 (KtxBasisParams.absent false)
        { KtxBasisETC1SParams.absent with quality_level := some 128 } = .ok b' →
        b' = b) ∧
      b.uastc = false ∧ b.uastcFlags = 0 ∧ b.uastcRDO = false ∧ b.uastcRDOQualityScalar = 0 ∧
      b.uastcRDODictSize = 0 ∧ b.uastcRDOMaxSmoothBlockErrorScale = 0 ∧
      b.uastcRDOMaxSmoothBlockStdDev = 0 ∧ b.uastcRDODontFavorSimplerModes = false ∧
      b.uastcRDONoMultithreading = false) :=
  ⟨(C13_mergers_are_deterministic 104 (KtxBasisParams.absent true)).1
      { KtxBasisUASTCParams.absent with uastc_rdo_dict_size := some 4096 },
    ⟨_, intoCPPBasisEtc1sParams_of_not_faults _ _ _ rfl,
      (C13_mergers_are_deterministic 104 (KtxBasisParams.absent false)).2
        { KtxBasisETC1SParams.absent with quality_level := some 128 } _
        (intoCPPBasisEtc1sParams_of_not_faults _ _ _ rfl)⟩⟩

/-- C14: the encoder mode is passed through without a cross-check.  The block
returned by either merger has uastc equal to the common set's uastc flag.
`intoCPPBasisUastcParams` with `uastc = false` returns a block with
`uastc = false` and the UASTC-specific overrides applied (here
uastc_rdo_quality_scalar, holding 1.5); `intoCPPBasisEtc1sParams` with
`uastc = true` returns a block with `uastc = true`. -/
theorem C14_uastc_flag_passed_through (sz : Nat) (c : KtxBasisParams) :
    (∀ u : KtxBasisUASTCParams, ∃ b, intoCPPBasisUastcParams sz c u = .ok b ∧
      b.uastc = c.uastc) ∧
    (∀ (e : KtxBasisETC1SParams) (b : ktxBasisParams), intoCPPBasisEtc1sParams sz c e = .ok b →
      b.uastc = c.uastc) ∧
    (∃ b, intoCPPBasisUastcParams sz (KtxBasisParams.absent false)
        { KtxBasisUASTCParams.absent with uastc_rdo_quality_scalar := some 0x3FC00000 } = .ok b ∧
      b.uastc = false ∧ b.uastcRDOQualityScalar = 0x3FC00000) ∧
    (∃ b, intoCPPBasisEtc1sParams sz (KtxBasisParams.absent true)
        { KtxBasisETC1SParams.absent with quality_level := some 128 } = .ok b ∧
      b.uastc = true ∧ b.qualityLevel = 128) := by
  refine ⟨?_, ?_, ?_, ?_⟩
  · intro u
    exact ⟨_, intoCPPBasisUastcParams_eq sz c u, rfl⟩
  · intro e b hb
    obtain ⟨-, rfl⟩ := intoCPPBasisEtc1sParams_ok hb
    rfl
  · exact ⟨_, intoCPPBasisUastcParams_eq _ _ _, rfl, rfl⟩
  · exact ⟨_, intoCPPBasisEtc1sParams_of_not_faults _ _ _ rfl, rfl, rfl⟩

/-- C14, at the ETC1S merger called with `uastc = true` and every field
present, and at the UASTC merger called with `uastc = false`. -/
theorem C14_uastc_flag_passed_through_witness :
    (∃ b, intoCPPBasisUastcParams 104 ⟨false, some true, some true, some 8⟩
        { KtxBasisUASTCParams.absent with pre_swizzle := some true } = .ok b ∧
      b.uastc = false) ∧
    (∃ b, intoCPPBasisEtc1sParams 104 ⟨true, some true, some true, some 8⟩
        ⟨some 3, some 128, some 512, some 0x3FA00000, some 1024, some 0x3FC00000,
          some ['r', 'g', 'b', 'a', 'X'], some true, some true, some true, some false,
          some true⟩ = .ok b ∧
      b.uastc = true) :=
  ⟨(C14_uastc_flag_passed_through 104 ⟨false, some true, some true, some 8⟩).1 _,
    ⟨_, intoCPPBasisEtc1sParams_of_not_faults _ _ _ rfl,
      (C14_uastc_flag_passed_through 104 ⟨true, some true, some true, some 8⟩).2.1 _ _
        (intoCPPBasisEtc1sParams_of_not_faults _ _ _ rfl)⟩⟩

/-- C15: `intoCPPBasisUastcParams` is total and its reads are in bounds.  On
every common set and every UASTC-specific set it returns a block: no
execution reads the value of an absent field (`Fault.nullDeref`) or a
character outside the swizzle string (`Fault.outOfBounds`).  A swizzle string
of at most 4 characters, the empty string included, gives the result of an
absent swizzle string: none of its characters is copied. -/
theorem C15_uastc_merger_is_total (sz : Nat) (c : KtxBasisParams) (u : KtxBasisUASTCParams) :
    (∃ b, intoCPPBasisUastcParams sz c u = .ok b) ∧
    (∀ f : Fault, intoCPPBasisUastcParams sz c u ≠ .error f) ∧
    (∀ s : List Char, s.length ≤ 4 →
      intoCPPBasisUastcParams sz c { u with input_swizzle := some s } =
        intoCPPBasisUastcParams sz c { u with input_swizzle := none }) := by
  refine ⟨⟨_, intoCPPBasisUastcParams_eq sz c u⟩, ?_, ?_⟩
  · intro f h
    rw [intoCPPBasisUastcParams_eq] at h
    cases h
  · intro s hs
    rw [intoCPPBasisUastcParams_eq, intoCPPBasisUastcParams_eq]
    simp only [uastcBlock, swizzleOf_short (some s) _ (Or.inr ⟨s, rfl, hs⟩),
      swizzleOf_short none _ (Or.inl rfl)]

/-- C15, at the empty swizzle string. -/
theorem C15_uastc_merger_is_total_witness :
    ([] : List Char).length ≤ 4 ∧
    intoCPPBasisUastcParams 104 (KtxBasisParams.absent true)
        { KtxBasisUASTCParams.absent with input_swizzle := some [] } =
      intoCPPBasisUastcParams 104 (KtxBasisParams.absent true)
        { KtxBasisUASTCParams.absent with input_swizzle := none } :=
  ⟨by decide, (C15_uastc_merger_is_total 104 (KtxBasisParams.absent true)
    KtxBasisUASTCParams.absent).2.2 [] (by decide)⟩

/-- C16: the two mergers treat the common fields alike.  For every common set
`c`, `intoCPPBasisUastcParams` on `c` and the UASTC set with every field
absent returns the block that `intoCPPBasisEtc1sParams` returns on `c` and the
ETC1S set with every field absent. -/
theorem C16_mergers_agree_on_common_fields (sz : Nat) (c : KtxBasisParams) :
    (∃ b, intoCPPBasisUastcParams sz c KtxBasisUASTCParams.absent = .ok b ∧
      intoCPPBasisEtc1sParams sz c KtxBasisETC1SParams.absent = .ok b) ∧
    intoCPPBasisUastcParams sz c KtxBasisUASTCParams.absent =
      intoCPPBasisEtc1sParams sz c KtxBasisETC1SParams.absent := by
  have h : intoCPPBasisEtc1sParams sz c KtxBasisETC1SParams.absent =
      .ok (uastcBlock sz c KtxBasisUASTCParams.absent) :=
    intoCPPBasisEtc1sParams_of_not_faults sz c KtxBasisETC1SParams.absent rfl
  exact ⟨⟨_, intoCPPBasisUastcParams_eq _ _ _, h⟩,
    (intoCPPBasisUastcParams_eq _ _ _).trans h.symm⟩

/-- C17: the value of no_endpoint_rdo never reaches the output.  For every
common set and every two ETC1S sets that agree on every field other than
no_endpoint_rdo and on whether no_endpoint_rdo is present,
`intoCPPBasisEtc1sParams` gives the same result on both: it returns a block
on both or on neither, and the two blocks are equal. -/
theorem C17_no_endpoint_rdo_value_is_unused (sz : Nat) (c : KtxBasisParams)
    (e e' : KtxBasisETC1SParams)
    (hpresent : e'.no_endpoint_rdo.isSome = e.no_endpoint_rdo.isSome)
    (h1 : e'.compression_level = e.compression_level)
    (h2 : e'.quality_level = e.quality_level)
    (h3 : e'.max_endpoints = e.max_endpoints)
    (h4 : e'.endpoint_rdo_threshold = e.endpoint_rdo_threshold)
    (h5 : e'.max_selectors = e.max_selectors)
    (h6 : e'.selector_rdo_threshold = e.selector_rdo_threshold)
    (h7 : e'.input_swizzle = e.input_swizzle)
    (h8 : e'.normal_map = e.normal_map)
    (h9 : e'.separate_rgt_to_rgba = e.separate_rgt_to_rgba)
    (h10 : e'.pre_swizzle = e.pre_swizzle)
    (h11 : e'.no_selector_rdo = e.no_selector_rdo) :
    intoCPPBasisEtc1sParams sz c e' = intoCPPBasisEtc1sParams sz c e ∧
    ((∃ b, intoCPPBasisEtc1sParams sz c e' = .ok b) ↔
      (∃ b, intoCPPBasisEtc1sParams sz c e = .ok b)) ∧
    (∀ b b', intoCPPBasisEtc1sParams sz c e = .ok b →
      intoCPPBasisEtc1sParams sz c e' = .ok b' → b' = b) := by
  have key : intoCPPBasisEtc1sParams sz c e' = intoCPPBasisEtc1sParams sz c e := by
    rw [intoCPPBasisEtc1sParams_eq, intoCPPBasisEtc1sParams_eq]
    simp only [etc1sFaults, etc1sBlock, hpresent, h1, h2, h3, h4, h5, h6, h7, h8, h9, h10, h11]
  refine ⟨key, by rw [key], ?_⟩
  intro b b' hb hb'
  rw [key, hb] at hb'
  exact (Except.ok.inj hb').symm

/-- C17, at two sets with both switches present that differ in the value of
no_endpoint_rdo only, and at two sets with no_selector_rdo absent. -/
theorem C17_no_endpoint_rdo_value_is_unused_witness :
    (intoCPPBasisEtc1sParams 104 (KtxBasisParams.absent false)
        { KtxBasisETC1SParams.absent with
          no_endpoint_rdo := some true, no_selector_rdo := some false } =
      intoCPPBasisEtc1sParams 104 (KtxBasisParams.absent false)
        { KtxBasisETC1SParams.absent with
          no_endpoint_rdo := some false, no_selector_rdo := some false }) ∧
    (intoCPPBasisEtc1sParams 104 (KtxBasisParams.absent false)
        { KtxBasisETC1SParams.absent with no_endpoint_rdo := some true } =
      intoCPPBasisEtc1sParams 104 (KtxBasisParams.absent false)
        { KtxBasisETC1SParams.absent with no_endpoint_rdo := some false }) :=
  ⟨(C17_no_endpoint_rdo_value_is_unused 104 (KtxBasisParams.absent false)
      { KtxBasisETC1SParams.absent with
        no_endpoint_rdo := some false, no_selector_rdo := some false }
      { KtxBasisETC1SParams.absent with
        no_endpoint_rdo := some true, no_selector_rdo := some false }
      rfl rfl rfl rfl rfl rfl rfl rfl rfl rfl rfl rfl).1,
    (C17_no_endpoint_rdo_value_is_unused 104 (KtxBasisParams.absent false)
      { KtxBasisETC1SParams.absent with no_endpoint_rdo := some false }
      { KtxBasisETC1SParams.absent with no_endpoint_rdo := some true }
      rfl rfl rfl rfl rfl rfl rfl rfl rfl rfl rfl rfl).1⟩

end Ktx2Wrapper
